import Mathlib

/-!
Verification of the Mailyser DNS checker evaluator core
(`src/frontend/src/App.js`, function `handleCheck` and its helper `checkDNS`).

The evaluator is shallowly embedded: the resolver is a pure function from a
DNS name and record type to an outcome (a JSON body with an optional `Answer`
field, a network error, or a malformed body), and every piece of decision
logic of `handleCheck` is translated into an executable Lean function.
-/

namespace MailyserDNS

/-- Per-record status, as the string statuses `"valid" | "warning" | "missing"
| "invalid"` used by `App.js`. -/
inductive RecordStatus where
  | valid
  | warning
  | missing
  | invalid
deriving DecidableEq, Repr, Fintype

/-- Overall verdict, as the strings `"pass" | "warning" | "fail"` of
`handleCheck`. -/
inductive OverallStatus where
  | pass
  | warning
  | fail
deriving DecidableEq, Repr, Fintype

/-- One DNS answer as returned by the DNS-over-HTTPS service: the code only
reads the `data` field of each element of `data.Answer`. -/
structure RawAnswer where
  name : String
  data : String
deriving DecidableEq, Repr

/-- The record evaluation object literals built by `handleCheck`
(`{type, status, record, issues, recommendations}`); `record: null` is
modelled as `none`. -/
structure RecordEvaluation where
  type : String
  status : RecordStatus
  record : Option String
  issues : List String
  recommendations : List String
deriving DecidableEq, Repr

/-- Outcome of one `fetch` to `https://dns.google/resolve`: a JSON body whose
`Answer` field may be absent (`data.Answer || []`), a network error thrown by
`fetch`, or a body on which `.json()` throws. -/
inductive DnsResponse where
  | success (answer : Option (List RawAnswer))
  | networkError
  | malformedBody
deriving DecidableEq, Repr

/-- A resolver assigns a `DnsResponse` to each (name, record type) query. -/
def Resolver : Type := String → String → DnsResponse

/-- `checkDNS` of `App.js`: returns `data.Answer || []`, and returns `[]`
from the `catch` block on any thrown error. -/
def checkDNS (resolve : Resolver) (domain recordType : String) : List RawAnswer :=
  match resolve domain recordType with
  | .success (some answers) => answers
  | .success none => []
  | .networkError => []
  | .malformedBody => []

/-- JS `hay.includes(needle)`: substring containment, on character lists. -/
def strContains (hay needle : String) : Bool :=
  decide (needle.data <:+: hay.data)

/-- JS `s.replace(/"/g, '')`: removes every quote character of `s`. -/
def removeQuotes (s : String) : String :=
  String.mk (s.data.filter (fun c => c ≠ '"'))

/-- The SPF branch of `handleCheck`, applied to the TXT answers for the
domain. -/
def spfEval (txtRecords : List RawAnswer) : RecordEvaluation :=
  let spfRecords := txtRecords.filter (fun record => strContains record.data "v=spf1")
  match spfRecords with
  | [] =>
    { type := "SPF"
      status := .missing
      record := none
      issues := ["No SPF record found"]
      recommendations := ["Add an SPF record to your DNS",
        "Example: v=spf1 include:_spf.google.com ~all"] }
  | first :: _ =>
    let spfRecord := removeQuotes first.data
    let issues :=
      if !(strContains spfRecord "~all") && !(strContains spfRecord "-all") then
        ["SPF record should end with an \x27all\x27 mechanism"]
      else []
    let recommendations :=
      if !(strContains spfRecord "~all") && !(strContains spfRecord "-all") then
        ["Add ~all (softfail) or -all (hardfail) at the end"]
      else []
    { type := "SPF"
      status := if issues.length = 0 then .valid else .warning
      record := some spfRecord
      issues := issues
      recommendations := recommendations }

/-- The DMARC branch of `handleCheck`, applied to the TXT answers for
`"_dmarc." + domain`. -/
def dmarcEval (dmarcRecords : List RawAnswer) : RecordEvaluation :=
  let dmarcFound := dmarcRecords.filter (fun record => strContains record.data "v=DMARC1")
  match dmarcFound with
  | [] =>
    { type := "DMARC"
      status := .missing
      record := none
      issues := ["No DMARC record found"]
      recommendations := ["Add a DMARC record to your DNS",
        "Example: v=DMARC1; p=quarantine; rua=mailto:dmarc@yourdomain.com"] }
  | first :: _ =>
    let dmarcRecord := removeQuotes first.data
    let issues :=
      if strContains dmarcRecord "p=none" then
        ["DMARC policy is set to \x27none\x27 - emails won\x27t be protected"]
      else []
    let recommendations :=
      if strContains dmarcRecord "p=none" then
        ["Consider upgrading to p=quarantine or p=reject"]
      else []
    { type := "DMARC"
      status := if issues.length = 0 then .valid else .warning
      record := some dmarcRecord
      issues := issues
      recommendations := recommendations }

/-- The fixed DKIM selector priority list of `handleCheck`. -/
def dkimSelectors : List String := ["default", "selector1", "google"]

/-- The initial DKIM evaluation of `handleCheck`, kept when no selector query
returns an answer. -/
def dkimMissingEval : RecordEvaluation :=
  { type := "DKIM"
    status := .missing
    record := none
    issues := ["No DKIM records found with common selectors"]
    recommendations := ["Set up DKIM signing for your email service",
      "Common selectors checked: default, selector1, google"] }

/-- The DKIM evaluation assigned when a selector query returns at least one
answer. -/
def dkimFoundEval (selector : String) : RecordEvaluation :=
  { type := "DKIM"
    status := .valid
    record := some ("Selector: " ++ selector ++ " (found)")
    issues := []
    recommendations := [] }

/-- The `for (const selector of dkimSelectors)` loop of `handleCheck`: the
first selector whose `checkDNS` call returns a non-empty list wins and the
loop breaks. -/
def dkimLoop (resolve : Resolver) (domain : String) : List String → RecordEvaluation
  | [] => dkimMissingEval
  | selector :: rest =>
    let dkimRecords := checkDNS resolve (selector ++ "._domainkey." ++ domain) "TXT"
    if dkimRecords.length > 0 then dkimFoundEval selector
    else dkimLoop resolve domain rest

/-- The DKIM branch of `handleCheck`. -/
def dkimEval (resolve : Resolver) (domain : String) : RecordEvaluation :=
  dkimLoop resolve domain dkimSelectors

/-- The overall-status computation of `handleCheck`. -/
def aggregate (spf dmarc dkim : RecordStatus) : OverallStatus :=
  let statuses := [spf, dmarc, dkim]
  let validCount := (statuses.filter (fun s => s = RecordStatus.valid)).length
  let missingCount := (statuses.filter (fun s => s = RecordStatus.missing)).length
  if validCount ≥ 2 then .pass
  else if missingCount ≥ 2 then .fail
  else .warning

/-- JS `s.split(sep)` on character lists: splits at every separator
occurrence, keeping empty fields. -/
def splitChars (sep : Char) : List Char → List (List Char)
  | [] => [[]]
  | c :: rest =>
    if c = sep then [] :: splitChars sep rest
    else
      match splitChars sep rest with
      | [] => [[c]]
      | field :: fields => (c :: field) :: fields

/-- JS `s.split(sep)` as a list of strings. -/
def jsSplit (sep : Char) (s : String) : List String :=
  (splitChars sep s.data).map String.mk

/-- JS `s.toLowerCase()` restricted to ASCII case mapping. -/
def jsToLower (s : String) : String :=
  String.mk (s.data.map Char.toLower)

/-- `email.split('@')[1].toLowerCase()` of `handleCheck`: `none` models the
`TypeError` thrown when the index-1 element is `undefined` (no `@` in the
email), which the surrounding `try` absorbs into the generic error state. -/
def extractDomain (email : String) : Option String :=
  ((jsSplit '@' email)[1]?).map jsToLower

/-- The report object passed to `setResult`. -/
structure Report where
  email : String
  domain : String
  overall_status : OverallStatus
  spf : RecordEvaluation
  dmarc : RecordEvaluation
  dkim : RecordEvaluation
  timestamp : String
deriving DecidableEq, Repr

/-- The whole of `handleCheck` after the guard, with the timestamp taken as a
parameter (`new Date().toISOString()` at report construction): `none` models
the caught exception path that sets the generic error message. -/
def check (resolve : Resolver) (email : String) (timestamp : String) : Option Report :=
  match extractDomain email with
  | none => none
  | some domain =>
    let spf := spfEval (checkDNS resolve domain "TXT")
    let dmarc := dmarcEval (checkDNS resolve ("_dmarc." ++ domain) "TXT")
    let dkim := dkimEval resolve domain
    some { email := email
           domain := domain
           overall_status := aggregate spf.status dmarc.status dkim.status
           spf := spf
           dmarc := dmarc
           dkim := dkim
           timestamp := timestamp }

/-- All fields of a report except its timestamp. -/
def reportCore (r : Report) :
    String × String × OverallStatus × RecordEvaluation × RecordEvaluation × RecordEvaluation :=
  (r.email, r.domain, r.overall_status, r.spf, r.dmarc, r.dkim)

/-- Follows the specification wording only, for comparison with the code's
`removeQuotes`: strip the surrounding quote characters of a string (one
leading and one trailing quote when present), leaving interior characters
unchanged. -/
def stripSurroundingQuotes (s : String) : String :=
  let cs := s.data
  let cs1 := if cs.head? = some '"' then cs.tail else cs
  let cs2 := if cs1.getLast? = some '"' then cs1.dropLast else cs1
  String.mk cs2

/-- The data-model invariant of §3 of the specification for one record
evaluation: a missing record has no `record` value, every non-valid status
carries at least one issue, and a valid status carries none. -/
def statusInvariant (e : RecordEvaluation) : Prop :=
  (e.status = RecordStatus.missing → e.record = none) ∧
  ((e.status = RecordStatus.warning ∨ e.status = RecordStatus.missing ∨
      e.status = RecordStatus.invalid) → e.issues ≠ []) ∧
  (e.status = RecordStatus.valid → e.issues = [])

/-- Concrete resolver used as a witness input: both the `default` and the
`google` DKIM selectors of `example.com` have a TXT answer. -/
def dkimBothResolver : Resolver := fun name _ =>
  if name = "default._domainkey.example.com" then
    DnsResponse.success (some [⟨name, "k=rsa; p=AAAA"⟩])
  else if name = "google._domainkey.example.com" then
    DnsResponse.success (some [⟨name, "k=rsa; p=BBBB"⟩])
  else
    DnsResponse.success (some [])

/-! Helper lemmas. -/

/-- `strContains` decides list infixhood of the character data. -/
theorem strContains_eq_true {hay needle : String} :
    strContains hay needle = true ↔ needle.data <:+: hay.data := by
  simp [strContains]

/-- Removing quote characters preserves any quote-free substring. -/
theorem strContains_removeQuotes (s t : String) (hq : '"' ∉ t.data)
    (h : strContains s t = true) : strContains (removeQuotes s) t = true := by
  rw [strContains_eq_true] at h ⊢
  have h2 := List.IsInfix.filter (fun c => decide (c ≠ '"')) h
  rw [removeQuotes]
  rwa [List.filter_eq_self.mpr ?_] at h2
  intro a ha
  simp only [decide_eq_true_eq]
  intro hcontra
  exact hq (hcontra ▸ ha)

/-- The DKIM loop returns the found-evaluation of the first selector whose
query has a non-empty answer list. -/
theorem dkimLoop_first_hit (resolve : Resolver) (domain : String) :
    ∀ (sels : List String) (s : String),
      sels.find?
        (fun sel => (checkDNS resolve (sel ++ "._domainkey." ++ domain) "TXT").length > 0) =
        some s →
      dkimLoop resolve domain sels = dkimFoundEval s := by
  intro sels
  induction sels with
  | nil => intro s h; simp at h
  | cons a rest ih =>
    intro s h
    by_cases hp : (checkDNS resolve (a ++ "._domainkey." ++ domain) "TXT").length > 0
    · simp only [List.find?_cons, decide_eq_true hp] at h
      cases h
      simp [dkimLoop, hp]
    · simp only [List.find?_cons, decide_eq_false hp] at h
      simp only [dkimLoop, hp, if_false]
      exact ih s h

/-- The DKIM loop only ever returns the missing evaluation or a
found-evaluation. -/
theorem dkimLoop_shape (resolve : Resolver) (domain : String) :
    ∀ sels : List String,
      dkimLoop resolve domain sels = dkimMissingEval ∨
      ∃ s, dkimLoop resolve domain sels = dkimFoundEval s := by
  intro sels
  induction sels with
  | nil => left; rfl
  | cons a rest ih =>
    by_cases hp : (checkDNS resolve (a ++ "._domainkey." ++ domain) "TXT").length > 0
    · right; exact ⟨a, by simp [dkimLoop, hp]⟩
    · simpa [dkimLoop, hp] using ih

/-! Claim theorems. -/

/-- C1: the aggregator is a pure function of the three record statuses: the
overall status is `pass` when at least two statuses are `valid`, else `fail`
when at least two are `missing`, else `warning`; it is invariant under every
permutation of its three inputs, and maps the four quoted triples to `pass`,
`fail`, `warning` and `warning` respectively. -/
theorem aggregate_counts_and_permutations :
    ∀ a b c : RecordStatus,
      (aggregate a b c =
        if 2 ≤ ([a, b, c].filter (fun s => s = RecordStatus.valid)).length then .pass
        else if 2 ≤ ([a, b, c].filter (fun s => s = RecordStatus.missing)).length then .fail
        else .warning) ∧
      aggregate a b c = aggregate a c b ∧
      aggregate a b c = aggregate b a c ∧
      aggregate a b c = aggregate b c a ∧
      aggregate a b c = aggregate c a b ∧
      aggregate a b c = aggregate c b a ∧
      aggregate .valid .valid .missing = .pass ∧
      aggregate .valid .missing .missing = .fail ∧
      aggregate .warning .valid .missing = .warning ∧
      aggregate .warning .warning .warning = .warning := by
  decide

/-- C2: the DKIM evaluation selects the first selector of the fixed list
`["default", "selector1", "google"]` whose query yields at least one answer;
that selector gives status `valid` and the record
`"Selector: " ++ selector ++ " (found)"`, without inspecting the answer
content; in particular when both `default` and `google` have a TXT answer,
`default` is selected. -/
theorem dkim_selector_priority :
    ∀ (resolve : Resolver) (domain : String),
      (∀ s : String,
        dkimSelectors.find?
          (fun sel =>
            (checkDNS resolve (sel ++ "._domainkey." ++ domain) "TXT").length > 0) = some s →
        dkimEval resolve domain =
          { type := "DKIM"
            status := .valid
            record := some ("Selector: " ++ s ++ " (found)")
            issues := []
            recommendations := [] }) ∧
      (checkDNS resolve ("default._domainkey." ++ domain) "TXT" ≠ [] →
       checkDNS resolve ("google._domainkey." ++ domain) "TXT" ≠ [] →
       (dkimEval resolve domain).record = some "Selector: default (found)" ∧
       (dkimEval resolve domain).status = .valid) := by
  intro resolve domain
  constructor
  · intro s h
    exact dkimLoop_first_hit resolve domain dkimSelectors s h
  · intro hdef _
    have hname : "default" ++ "._domainkey." ++ domain = "default._domainkey." ++ domain := rfl
    have hlen : (checkDNS resolve ("default" ++ "._domainkey." ++ domain) "TXT").length > 0 := by
      rw [hname]
      exact List.length_pos.mpr hdef
    have hfind :
        dkimSelectors.find?
          (fun sel =>
            (checkDNS resolve (sel ++ "._domainkey." ++ domain) "TXT").length > 0) =
          some "default" := by
      simp only [dkimSelectors, List.find?_cons, decide_eq_true hlen]
    have h := dkimLoop_first_hit resolve domain dkimSelectors "default" hfind
    rw [dkimEval, h]
    exact ⟨rfl, rfl⟩

/-- Witness for C2 at a concrete resolver where both the `default` and the
`google` selector of `example.com` have a TXT answer. -/
theorem dkim_selector_priority_witness :
    checkDNS dkimBothResolver "default._domainkey.example.com" "TXT" ≠ [] ∧
    checkDNS dkimBothResolver "google._domainkey.example.com" "TXT" ≠ [] ∧
    (dkimEval dkimBothResolver "example.com").record = some "Selector: default (found)" ∧
    (dkimEval dkimBothResolver "example.com").status = .valid := by
  have h := (dkim_selector_priority dkimBothResolver "example.com").2 (by decide) (by decide)
  exact ⟨by decide, by decide, h.1, h.2⟩

/-- C3: for every TXT answer set of the domain, if no answer data contains
`v=spf1` the SPF evaluation is `missing` with the stated issue and
recommendations; otherwise, if the selected (unquoted) record contains
neither `~all` nor `-all`, it is `warning` with the stated issue and
recommendation; otherwise it is `valid` with empty issues and
recommendations. -/
theorem spf_classification :
    ∀ answers : List RawAnswer,
      (answers.filter (fun r => strContains r.data "v=spf1") = [] →
        spfEval answers =
          { type := "SPF"
            status := .missing
            record := none
            issues := ["No SPF record found"]
            recommendations := ["Add an SPF record to your DNS",
              "Example: v=spf1 include:_spf.google.com ~all"] }) ∧
      (∀ (first : RawAnswer) (rest : List RawAnswer),
        answers.filter (fun r => strContains r.data "v=spf1") = first :: rest →
        (strContains (removeQuotes first.data) "~all" = false →
         strContains (removeQuotes first.data) "-all" = false →
          spfEval answers =
            { type := "SPF"
              status := .warning
              record := some (removeQuotes first.data)
              issues := ["SPF record should end with an \x27all\x27 mechanism"]
              recommendations := ["Add ~all (softfail) or -all (hardfail) at the end"] }) ∧
        ((strContains (removeQuotes first.data) "~all" = true ∨
          strContains (removeQuotes first.data) "-all" = true) →
          spfEval answers =
            { type := "SPF"
              status := .valid
              record := some (removeQuotes first.data)
              issues := []
              recommendations := [] })) := by
  intro answers
  constructor
  · intro h
    unfold spfEval
    rw [h]
  · intro first rest h
    constructor
    · intro h1 h2
      unfold spfEval
      rw [h]
      simp [h1, h2]
    · intro hor
      unfold spfEval
      rw [h]
      rcases hor with h1 | h1 <;> simp [h1]

/-- Witness for C3 on a concrete answer set whose single SPF record has no
`all` mechanism. -/
theorem spf_classification_witness :
    ([⟨"example.com", "v=spf1 include:_spf.google.com"⟩] : List RawAnswer).filter
        (fun r => strContains r.data "v=spf1") =
      [⟨"example.com", "v=spf1 include:_spf.google.com"⟩] ∧
    strContains (removeQuotes "v=spf1 include:_spf.google.com") "~all" = false ∧
    strContains (removeQuotes "v=spf1 include:_spf.google.com") "-all" = false ∧
    spfEval [⟨"example.com", "v=spf1 include:_spf.google.com"⟩] =
      { type := "SPF"
        status := .warning
        record := some "v=spf1 include:_spf.google.com"
        issues := ["SPF record should end with an \x27all\x27 mechanism"]
        recommendations := ["Add ~all (softfail) or -all (hardfail) at the end"] } := by
  refine ⟨by decide, by decide, by decide, ?_⟩
  have h :=
    ((spf_classification [⟨"example.com", "v=spf1 include:_spf.google.com"⟩]).2
      ⟨"example.com", "v=spf1 include:_spf.google.com"⟩ [] (by decide)).1
      (by decide) (by decide)
  exact h.trans (by decide)

/-- C4: for every TXT answer set of `"_dmarc." + domain`, if no answer data
contains `v=DMARC1` the DMARC evaluation is `missing` with the stated issue
and recommendations; otherwise the first match is taken, and if its unquoted
data contains `p=none` the evaluation is `warning` with the stated issue and
recommendation, else `valid`. -/
theorem dmarc_classification :
    ∀ answers : List RawAnswer,
      (answers.filter (fun r => strContains r.data "v=DMARC1") = [] →
        dmarcEval answers =
          { type := "DMARC"
            status := .missing
            record := none
            issues := ["No DMARC record found"]
            recommendations := ["Add a DMARC record to your DNS",
              "Example: v=DMARC1; p=quarantine; rua=mailto:dmarc@yourdomain.com"] }) ∧
      (∀ (first : RawAnswer) (rest : List RawAnswer),
        answers.filter (fun r => strContains r.data "v=DMARC1") = first :: rest →
        (strContains (removeQuotes first.data) "p=none" = true →
          dmarcEval answers =
            { type := "DMARC"
              status := .warning
              record := some (removeQuotes first.data)
              issues := ["DMARC policy is set to \x27none\x27 - emails won\x27t be protected"]
              recommendations := ["Consider upgrading to p=quarantine or p=reject"] }) ∧
        (strContains (removeQuotes first.data) "p=none" = false →
          dmarcEval answers =
            { type := "DMARC"
              status := .valid
              record := some (removeQuotes first.data)
              issues := []
              recommendations := [] })) := by
  intro answers
  constructor
  · intro h
    unfold dmarcEval
    rw [h]
  · intro first rest h
    constructor
    · intro h1
      unfold dmarcEval
      rw [h]
      simp [h1]
    · intro h1
      unfold dmarcEval
      rw [h]
      simp [h1]

/-- Witness for C4 on a concrete answer set whose single record is
`v=DMARC1; p=reject`. -/
theorem dmarc_classification_witness :
    ([⟨"_dmarc.example.com", "v=DMARC1; p=reject"⟩] : List RawAnswer).filter
        (fun r => strContains r.data "v=DMARC1") =
      [⟨"_dmarc.example.com", "v=DMARC1; p=reject"⟩] ∧
    strContains (removeQuotes "v=DMARC1; p=reject") "p=none" = false ∧
    dmarcEval [⟨"_dmarc.example.com", "v=DMARC1; p=reject"⟩] =
      { type := "DMARC"
        status := .valid
        record := some "v=DMARC1; p=reject"
        issues := []
        recommendations := [] } := by
  refine ⟨by decide, by decide, ?_⟩
  have h :=
    ((dmarc_classification [⟨"_dmarc.example.com", "v=DMARC1; p=reject"⟩]).2
      ⟨"_dmarc.example.com", "v=DMARC1; p=reject"⟩ [] (by decide)).2 (by decide)
  exact h.trans (by decide)

/-- C5: the specification mandates an `InvalidInput` failure, surfaced before
any DNS query, for an email with no `@` or an empty part after the first `@`.
The code has no such guard: for `"not-an-email"` the derivation throws a
`TypeError` that the `catch` absorbs into the generic error message (modelled
as `none`), and for `"user@"` it silently derives the empty domain and
proceeds to issue DNS queries, producing a report. -/
theorem invalid_email_not_guarded :
    extractDomain "not-an-email" = none ∧
    extractDomain "user@" = some "" ∧
    (check (fun _ _ => DnsResponse.success (some []))
      "user@" "2026-01-01T00:00:00Z").isSome = true := by
  decide

/-- C6 counterexample: the claim says the record equals the first match's
data with only its surrounding quote characters stripped, but
`replace(/"/g, '')` also removes interior quotes: on the answer data
`v=spf1 "x" -all` (interior quotes, no surrounding ones) the produced record
differs from the surrounding-quotes-stripped data. -/
theorem spf_unquote_counterexample :
    (spfEval [⟨"example.com", "v=spf1 \x22x\x22 -all"⟩]).record ≠
      some (stripSurroundingQuotes "v=spf1 \x22x\x22 -all") := by
  decide

/-- C6 amended: for SPF and DMARC, when the filtered answer set is non-empty
the record field equals the data of the first match in resolver-returned
order with every quote character removed (all occurrences, not only the
surrounding ones). -/
theorem record_unquote_removes_all_quotes :
    ∀ (spfAnswers dmarcAnswers : List RawAnswer) (s d : RawAnswer)
      (srest drest : List RawAnswer),
      (spfAnswers.filter (fun r => strContains r.data "v=spf1") = s :: srest →
        (spfEval spfAnswers).record = some (removeQuotes s.data)) ∧
      (dmarcAnswers.filter (fun r => strContains r.data "v=DMARC1") = d :: drest →
        (dmarcEval dmarcAnswers).record = some (removeQuotes d.data)) := by
  intro spfAnswers dmarcAnswers s d srest drest
  constructor
  · intro h
    unfold spfEval
    rw [h]
  · intro h
    unfold dmarcEval
    rw [h]

/-- Witness for the amended C6 on concrete answers with interior and
surrounding quotes. -/
theorem record_unquote_removes_all_quotes_witness :
    ([⟨"example.com", "v=spf1 \x22x\x22 -all"⟩] : List RawAnswer).filter
        (fun r => strContains r.data "v=spf1") =
      [⟨"example.com", "v=spf1 \x22x\x22 -all"⟩] ∧
    ([⟨"_dmarc.example.com", "\x22v=DMARC1; p=reject\x22"⟩] : List RawAnswer).filter
        (fun r => strContains r.data "v=DMARC1") =
      [⟨"_dmarc.example.com", "\x22v=DMARC1; p=reject\x22"⟩] ∧
    (spfEval [⟨"example.com", "v=spf1 \x22x\x22 -all"⟩]).record = some "v=spf1 x -all" ∧
    (dmarcEval [⟨"_dmarc.example.com", "\x22v=DMARC1; p=reject\x22"⟩]).record =
      some "v=DMARC1; p=reject" := by
  have h :=
    record_unquote_removes_all_quotes
      [⟨"example.com", "v=spf1 \x22x\x22 -all"⟩]
      [⟨"_dmarc.example.com", "\x22v=DMARC1; p=reject\x22"⟩]
      ⟨"example.com", "v=spf1 \x22x\x22 -all"⟩
      ⟨"_dmarc.example.com", "\x22v=DMARC1; p=reject\x22"⟩ [] []
  exact ⟨by decide, by decide, (h.1 (by decide)).trans (by decide),
    (h.2 (by decide)).trans (by decide)⟩

/-- C7: a resolver call that fails in transport (network error, malformed
body, or missing `Answer` field) is treated by `checkDNS` as an empty answer
set, so the SPF and DMARC evaluations on it are exactly those of an absent
record, with status `missing`. -/
theorem transport_failure_as_empty :
    ∀ (resolve : Resolver) (name recordType : String),
      (resolve name recordType = DnsResponse.networkError ∨
       resolve name recordType = DnsResponse.malformedBody ∨
       resolve name recordType = DnsResponse.success none) →
      checkDNS resolve name recordType = [] ∧
      spfEval (checkDNS resolve name recordType) = spfEval [] ∧
      dmarcEval (checkDNS resolve name recordType) = dmarcEval [] ∧
      (spfEval (checkDNS resolve name recordType)).status = .missing ∧
      (dmarcEval (checkDNS resolve name recordType)).status = .missing := by
  intro resolve name recordType h
  have hempty : checkDNS resolve name recordType = [] := by
    unfold checkDNS
    rcases h with h | h | h <;> rw [h]
  refine ⟨hempty, by rw [hempty], by rw [hempty], ?_, ?_⟩ <;> rw [hempty] <;> decide

/-- Witness for C7 at a resolver that always fails with a network error. -/
theorem transport_failure_as_empty_witness :
    ((fun _ _ => DnsResponse.networkError : Resolver) "example.com" "TXT" =
      DnsResponse.networkError ∨
     (fun _ _ => DnsResponse.networkError : Resolver) "example.com" "TXT" =
      DnsResponse.malformedBody ∨
     (fun _ _ => DnsResponse.networkError : Resolver) "example.com" "TXT" =
      DnsResponse.success none) ∧
    checkDNS (fun _ _ => DnsResponse.networkError) "example.com" "TXT" = [] ∧
    (spfEval (checkDNS (fun _ _ => DnsResponse.networkError) "example.com" "TXT")).status =
      .missing := by
  have h :=
    transport_failure_as_empty (fun _ _ => DnsResponse.networkError) "example.com" "TXT"
      (Or.inl rfl)
  exact ⟨Or.inl rfl, h.1, h.2.2.2.1⟩

/-- C8: every record evaluation produced by the SPF, DMARC and DKIM
evaluators satisfies the data-model invariant: a `missing` status has an
empty record, every status in warning/missing/invalid carries at least one
issue, and a `valid` status carries none. -/
theorem evaluation_invariant :
    ∀ (answers danswers : List RawAnswer) (resolve : Resolver) (domain : String),
      statusInvariant (spfEval answers) ∧
      statusInvariant (dmarcEval danswers) ∧
      statusInvariant (dkimEval resolve domain) := by
  intro answers danswers resolve domain
  refine ⟨?_, ?_, ?_⟩
  · unfold spfEval
    cases answers.filter (fun r => strContains r.data "v=spf1") with
    | nil => simp [statusInvariant]
    | cons first rest =>
      by_cases hc : (!strContains (removeQuotes first.data) "~all" &&
          !strContains (removeQuotes first.data) "-all") = true
      · simp [statusInvariant, hc]
      · simp [statusInvariant, eq_false_of_ne_true hc]
  · unfold dmarcEval
    cases danswers.filter (fun r => strContains r.data "v=DMARC1") with
    | nil => simp [statusInvariant]
    | cons first rest =>
      by_cases hc : strContains (removeQuotes first.data) "p=none" = true
      · simp [statusInvariant, hc]
      · simp [statusInvariant, eq_false_of_ne_true hc]
  · rcases dkimLoop_shape resolve domain dkimSelectors with h | ⟨s, h⟩ <;>
      rw [dkimEval, h]
    · simp [statusInvariant, dkimMissingEval]
    · simp [statusInvariant, dkimFoundEval]

/-- Witness for C8 at empty answer sets and an always-failing resolver. -/
theorem evaluation_invariant_witness :
    statusInvariant (spfEval []) ∧ statusInvariant (dkimEval (fun _ _ => DnsResponse.networkError) "example.com") := by
  have h := evaluation_invariant [] [] (fun _ _ => DnsResponse.networkError) "example.com"
  exact ⟨h.1, h.2.2⟩

/-- C9: `check` is deterministic in the email and the resolver answers: two
invocations that differ only in the timestamp yield reports equal in every
field except the timestamp. -/
theorem check_deterministic :
    ∀ (resolve : Resolver) (email t1 t2 : String),
      (check resolve email t1).map reportCore = (check resolve email t2).map reportCore := by
  intro resolve email t1 t2
  unfold check
  cases extractDomain email <;> rfl

/-- C10: the DMARC policy test is a plain substring search, so any answer
whose data contains `p=none` anywhere — including inside the `sp=none`
subdomain-policy tag — is classified `warning`, with the policy issue. -/
theorem dmarc_policy_plain_substring :
    ∀ (answers : List RawAnswer) (first : RawAnswer) (rest : List RawAnswer),
      answers.filter (fun r => strContains r.data "v=DMARC1") = first :: rest →
      strContains first.data "p=none" = true →
      (dmarcEval answers).status = .warning ∧
      (dmarcEval answers).issues =
        ["DMARC policy is set to \x27none\x27 - emails won\x27t be protected"] := by
  intro answers first rest h h2
  have hc : strContains (removeQuotes first.data) "p=none" = true :=
    strContains_removeQuotes first.data "p=none" (by decide) h2
  unfold dmarcEval
  rw [h]
  simp [hc]

/-- Witness for C10: the record `v=DMARC1; p=reject; sp=none` has policy tag
`p=reject` but is classified `warning` because `sp=none` contains the
substring `p=none`. -/
theorem dmarc_policy_plain_substring_witness :
    ([⟨"_dmarc.example.com", "v=DMARC1; p=reject; sp=none"⟩] : List RawAnswer).filter
        (fun r => strContains r.data "v=DMARC1") =
      [⟨"_dmarc.example.com", "v=DMARC1; p=reject; sp=none"⟩] ∧
    strContains "v=DMARC1; p=reject; sp=none" "p=none" = true ∧
    (dmarcEval [⟨"_dmarc.example.com", "v=DMARC1; p=reject; sp=none"⟩]).status = .warning := by
  refine ⟨by decide, by decide, ?_⟩
  exact (dmarc_policy_plain_substring
    [⟨"_dmarc.example.com", "v=DMARC1; p=reject; sp=none"⟩]
    ⟨"_dmarc.example.com", "v=DMARC1; p=reject; sp=none"⟩ [] (by decide) (by decide)).1

end MailyserDNS
